import Mathlib

/-!
Verification of the service-worker caching agent in `src/sw.js`.

The worker registers three handlers:
* install: opens the cache named `CACHE_NAME` and calls `cache.addAll(ASSETS)`;
* activate: enumerates all cache names and deletes every one different from `CACHE_NAME`;
* fetch: passes non-GET requests through untouched; serves `/api/` GET requests
  network-first with a `caches.match` fallback; serves all other GET requests
  cache-first, refilling the current cache in the background on a miss and
  falling back to the cached `/static/index.html` for failed navigations.

The embedding below models the durable cache storage as an ordered association
list of named caches (each cache an association list from URL path to response),
the network as an oracle `Request → Option Response` (`none` models a rejected
fetch; `some r` a resolved fetch with any HTTP status), and each handler as a
pure function that also reports its observable effects (network fetch count,
cache read count, cache write count).
-/

/-- An intercepted request: method, URL pathname and navigation mode,
mirroring `event.request.method`, `new URL(event.request.url).pathname`
and `event.request.mode` in `src/sw.js`. -/
structure Request where
  method : String
  path : String
  mode : String
deriving DecidableEq, Repr

/-- A response snapshot: HTTP status code and body bytes.  A resolved fetch
carries any status (4xx/5xx included); a rejected fetch is modelled by
`Option.none` at the network oracle, not by a `Response`. -/
structure Response where
  status : Nat
  body : String
deriving DecidableEq, Repr

/-- One named cache generation: request identity (URL path) to stored response,
first entry wins on lookup, as in the Cache API. -/
abbrev Cache := List (String × Response)

/-- The durable cache storage: named cache generations in creation order,
as enumerated by `caches.keys()`. -/
abbrev CacheStorage := List (String × Cache)

/-- The current cache generation identifier baked into `src/sw.js`. -/
def CACHE_NAME : String := "didit-cache-v1"

/-- The fixed asset manifest from `src/sw.js`. -/
def ASSETS : List String :=
  ["/", "/static/index.html", "/static/manifest.webmanifest", "/static/icons/ICON.jpg"]

/-- Classification test `url.pathname.startsWith("/api/")` from the fetch
handler, stated on the character sequence of the path so that concrete
instances evaluate in the kernel. -/
def pathIsApi (p : String) : Bool :=
  "/api/".data.isPrefixOf p.data

/-- Lookup of a request identity inside one cache generation
(`cache.match`): first stored entry with that key. -/
def cacheMatch : Cache → String → Option Response
  | [], _ => none
  | e :: rest, p => if e.1 = p then some e.2 else cacheMatch rest p

/-- Global lookup across every cache generation in order
(`caches.match`): first generation holding the identity wins. -/
def cachesMatch : CacheStorage → String → Option Response
  | [], _ => none
  | (_, c) :: rest, p =>
    match cacheMatch c p with
    | some r => some r
    | none => cachesMatch rest p

/-- Store a response under a request identity inside one generation
(`cache.put`): any previous entry for the identity is replaced. -/
def cachePut (c : Cache) (p : String) (r : Response) : Cache :=
  c.filter (fun e => e.1 ≠ p) ++ [(p, r)]

/-- Open a generation by name, creating it at the end of the storage if
absent (`caches.open`), and put one entry into it. -/
def openPut (st : CacheStorage) (name p : String) (r : Response) : CacheStorage :=
  if st.any (fun e => e.1 = name) then
    st.map (fun e => if e.1 = name then (e.1, cachePut e.2 p r) else e)
  else
    st ++ [(name, cachePut [] p r)]

/-- What the fetch handler hands to the host: either it returns without
calling `event.respondWith` (pass-through), or it responds with the value
its promise resolved to, which may be `none` (a JavaScript `undefined`,
surfaced by the host as a failed resource load). -/
inductive HandlerResult where
  | passThrough
  | respond (r : Option Response)
deriving DecidableEq, Repr

/-- Outcome of one fetch-handler invocation after every spawned operation
(including the background cache write) has settled: the result handed to
the host, the storage afterwards, and the observable effect counters. -/
structure FetchOutcome where
  result : HandlerResult
  storage : CacheStorage
  netFetches : Nat
  cacheReads : Nat
  cacheWrites : Nat
deriving DecidableEq, Repr

/-- The fetch handler of `src/sw.js`, as a pure function of the network
oracle, the cache storage and the intercepted request.

* non-GET: early return, no interception, no cache traffic;
* path starting with "/api/": `fetch(request).catch(() => caches.match(request))`;
* otherwise: `caches.match(request)`, on a hit return it; on a miss fetch,
  on success clone/return and put the copy into `CACHE_NAME` in the
  background, on failure return `caches.match("/static/index.html")` for
  navigations and `undefined` otherwise. -/
def handleFetch (net : Request → Option Response) (st : CacheStorage)
    (req : Request) : FetchOutcome :=
  if req.method ≠ "GET" then
    { result := .passThrough, storage := st,
      netFetches := 0, cacheReads := 0, cacheWrites := 0 }
  else if pathIsApi req.path then
    match net req with
    | some r =>
        { result := .respond (some r), storage := st,
          netFetches := 1, cacheReads := 0, cacheWrites := 0 }
    | none =>
        { result := .respond (cachesMatch st req.path), storage := st,
          netFetches := 1, cacheReads := 1, cacheWrites := 0 }
  else
    match cachesMatch st req.path with
    | some c =>
        { result := .respond (some c), storage := st,
          netFetches := 0, cacheReads := 1, cacheWrites := 0 }
    | none =>
        match net req with
        | some r =>
            { result := .respond (some r),
              storage := openPut st CACHE_NAME req.path r,
              netFetches := 1, cacheReads := 1, cacheWrites := 1 }
        | none =>
            if req.mode = "navigate" then
              { result := .respond (cachesMatch st "/static/index.html"),
                storage := st,
                netFetches := 1, cacheReads := 2, cacheWrites := 0 }
            else
              { result := .respond none, storage := st,
                netFetches := 1, cacheReads := 1, cacheWrites := 0 }

/-- Fetch every listed asset through the network oracle, in manifest order:
`none` as soon as any single fetch rejects (the failure `cache.addAll`
propagates), otherwise the list of fetched (path, response) pairs. -/
def fetchAll (net : String → Option Response) : List String → Option (List (String × Response))
  | [] => some []
  | a :: rest =>
    match net a with
    | none => none
    | some r =>
      match fetchAll net rest with
      | none => none
      | some tail => some ((a, r) :: tail)

/-- The cache held under a name in the storage, empty when absent. -/
def getCache (st : CacheStorage) (name : String) : Cache :=
  match st.find? (fun e => e.1 = name) with
  | some e => e.2
  | none => []

/-- Replace the cache held under a name. -/
def setCache (st : CacheStorage) (name : String) (c : Cache) : CacheStorage :=
  st.map (fun e => if e.1 = name then (e.1, c) else e)

/-- Open a generation by name, creating an empty one at the end of the
storage when absent (`caches.open`). -/
def openCache (st : CacheStorage) (name : String) : CacheStorage :=
  if st.any (fun e => e.1 = name) then st else st ++ [(name, [])]

/-- The `cache.addAll(assets)` bulk operation: fetch every asset and, when
all fetches resolve, store each response under its path; when any fetch
rejects the whole operation fails. -/
def cacheAddAll (net : String → Option Response) (c : Cache)
    (assets : List String) : Option Cache :=
  (fetchAll net assets).map (fun entries =>
    entries.foldl (fun acc e => cachePut acc e.1 e.2) c)

/-- The install handler of `src/sw.js`:
`caches.open(CACHE_NAME).then((cache) => cache.addAll(ASSETS))` wrapped in
`event.waitUntil`, so a rejected `addAll` makes the whole install fail
(`none`); on success the storage with the populated current generation. -/
def installSW (net : String → Option Response) (st : CacheStorage) :
    Option CacheStorage :=
  let opened := openCache st CACHE_NAME
  (cacheAddAll net (getCache opened CACHE_NAME) ASSETS).map
    (fun c => setCache opened CACHE_NAME c)

/-- The activate handler of `src/sw.js`:
`caches.keys()` followed by `caches.delete(k)` for every `k !== CACHE_NAME`.
Returns the list of names a deletion was issued for, and the storage after
the sweep. -/
def activateSW (st : CacheStorage) : List String × CacheStorage :=
  ((st.map Prod.fst).filter (fun k => k ≠ CACHE_NAME),
   st.filter (fun e => e.1 = CACHE_NAME))

/-! Helper lemmas about cache lookup after a put. -/

theorem cacheMatch_cachePut_self (c : Cache) (p : String) (r : Response) :
    cacheMatch (cachePut c p r) p = some r := by
  unfold cachePut
  induction c with
  | nil => simp [cacheMatch]
  | cons e rest ih =>
    by_cases he : e.1 = p
    · simpa [List.filter, he] using ih
    · simpa [List.filter, he, cacheMatch] using ih

theorem cachesMatch_cons_none {n : String} {c : Cache} {rest : CacheStorage}
    {p : String} (hc : cacheMatch c p = none) :
    cachesMatch ((n, c) :: rest) p = cachesMatch rest p := by
  simp [cachesMatch, hc]

theorem cachesMatch_openPut_self (name p : String) (r : Response) :
    ∀ st : CacheStorage, cachesMatch st p = none →
      cachesMatch (openPut st name p r) p = some r := by
  intro st
  induction st with
  | nil =>
    intro _
    simp [openPut, cachesMatch, cacheMatch_cachePut_self]
  | cons e rest ih =>
    intro h
    obtain ⟨n, c⟩ := e
    rcases hcm : cacheMatch c p with _ | r0
    · have hrest : cachesMatch rest p = none := by
        rw [cachesMatch_cons_none hcm] at h; exact h
      by_cases hn : n = name
      · simp [openPut, List.any_cons, hn, cachesMatch,
          cacheMatch_cachePut_self]
      · by_cases hany : rest.any (fun e => e.1 = name)
        · have hrec := ih hrest
          rw [openPut, if_pos hany] at hrec
          simp only [openPut, List.any_cons, hn, decide_eq_true_eq]
          simp only [decide_False, Bool.false_or, hany, if_true,
            List.map_cons, if_neg hn]
          rw [cachesMatch_cons_none hcm]
          exact hrec
        · have hrec := ih hrest
          rw [openPut, if_neg hany] at hrec
          have hnone : ¬ ((n, c) :: rest).any (fun e => e.1 = name) := by
            simp [List.any_cons, hn, hany]
          rw [openPut, if_neg hnone, List.cons_append,
            cachesMatch_cons_none hcm]
          exact hrec
    · exfalso
      rw [cachesMatch, hcm] at h
      exact Option.noConfusion h

/-- C1: for every GET request whose URL path does not start with /api/ and
whose request identity is already present in the cache, the handler returns
the cached entry, performs no network fetch at all, and leaves the storage
unchanged. -/
theorem fetch_cacheHit_returnsCached_noNetwork
    (net : Request → Option Response) (st : CacheStorage) (req : Request)
    (c : Response)
    (hm : req.method = "GET")
    (hapi : pathIsApi req.path = false)
    (hhit : cachesMatch st req.path = some c) :
    handleFetch net st req =
      { result := .respond (some c), storage := st,
        netFetches := 0, cacheReads := 1, cacheWrites := 0 } := by
  simp [handleFetch, hm, hapi, hhit]

/-- Witness for C1 at a concrete cached request: the network oracle would
answer, yet the outcome records zero fetches and the cached entry. -/
theorem fetch_cacheHit_returnsCached_noNetwork_witness :
    handleFetch (fun _ => some ⟨500, "net"⟩)
      [("didit-cache-v1", [("/app.js", ⟨200, "cached"⟩)])]
      ⟨"GET", "/app.js", "no-cors"⟩ =
      { result := .respond (some ⟨200, "cached"⟩),
        storage := [("didit-cache-v1", [("/app.js", ⟨200, "cached"⟩)])],
        netFetches := 0, cacheReads := 1, cacheWrites := 0 } :=
  fetch_cacheHit_returnsCached_noNetwork _ _ _ _ rfl (by decide) (by decide)

/-- C2: for every GET request whose URL path starts with /api/, when the
network fetch resolves (with any HTTP status), the handler returns exactly
that network response and the cache storage is unchanged (no write). -/
theorem fetch_api_networkSuccess_uncached
    (net : Request → Option Response) (st : CacheStorage) (req : Request)
    (r : Response)
    (hm : req.method = "GET")
    (hapi : pathIsApi req.path = true)
    (hnet : net req = some r) :
    handleFetch net st req =
      { result := .respond (some r), storage := st,
        netFetches := 1, cacheReads := 0, cacheWrites := 0 } := by
  simp [handleFetch, hm, hapi, hnet]

/-- Witness for C2 at a concrete /api/ request whose fetch resolves with a
503 status: the 503 response is returned as-is and nothing is cached. -/
theorem fetch_api_networkSuccess_uncached_witness :
    handleFetch (fun _ => some ⟨503, "oops"⟩)
      [("didit-cache-v1", [("/api/notes", ⟨200, "old"⟩)])]
      ⟨"GET", "/api/notes", "cors"⟩ =
      { result := .respond (some ⟨503, "oops"⟩),
        storage := [("didit-cache-v1", [("/api/notes", ⟨200, "old"⟩)])],
        netFetches := 1, cacheReads := 0, cacheWrites := 0 } :=
  fetch_api_networkSuccess_uncached _ _ _ _ rfl (by decide) rfl

/-- C3: for every GET request whose URL path starts with /api/, when the
network fetch rejects, the handler responds with the global cache lookup
for that exact request identity — the found entry, or an absent (undefined)
result when none exists, never an error response — and writes nothing. -/
theorem fetch_api_networkFailure_cacheFallback
    (net : Request → Option Response) (st : CacheStorage) (req : Request)
    (hm : req.method = "GET")
    (hapi : pathIsApi req.path = true)
    (hnet : net req = none) :
    handleFetch net st req =
      { result := .respond (cachesMatch st req.path), storage := st,
        netFetches := 1, cacheReads := 1, cacheWrites := 0 } := by
  simp [handleFetch, hm, hapi, hnet]

/-- Witness for C3: one offline /api/ request with a cached entry (served
from cache) and one without (absent result, not an error response). -/
theorem fetch_api_networkFailure_cacheFallback_witness :
    handleFetch (fun _ => none)
      [("didit-cache-v1", [("/api/notes", ⟨200, "old"⟩)])]
      ⟨"GET", "/api/notes", "cors"⟩ =
      { result := .respond (some ⟨200, "old"⟩),
        storage := [("didit-cache-v1", [("/api/notes", ⟨200, "old"⟩)])],
        netFetches := 1, cacheReads := 1, cacheWrites := 0 } ∧
    handleFetch (fun _ => none) [] ⟨"GET", "/api/other", "cors"⟩ =
      { result := .respond none, storage := [],
        netFetches := 1, cacheReads := 1, cacheWrites := 0 } :=
  ⟨fetch_api_networkFailure_cacheFallback _ _ _ rfl (by decide) rfl,
   fetch_api_networkFailure_cacheFallback _ _ _ rfl (by decide) rfl⟩

/-- C8: for every intercepted request whose method is not GET, the handler
passes the request through: no response is supplied, the storage is
unchanged, and no cache read, cache write or network fetch happens. -/
theorem fetch_nonGet_passThrough
    (net : Request → Option Response) (st : CacheStorage) (req : Request)
    (hm : req.method ≠ "GET") :
    handleFetch net st req =
      { result := .passThrough, storage := st,
        netFetches := 0, cacheReads := 0, cacheWrites := 0 } := by
  simp [handleFetch, hm]

/-- Witness for C8 at a concrete POST request. -/
theorem fetch_nonGet_passThrough_witness :
    handleFetch (fun _ => some ⟨200, "net"⟩)
      [("didit-cache-v1", [("/api/notes", ⟨200, "old"⟩)])]
      ⟨"POST", "/api/notes", "cors"⟩ =
      { result := .passThrough,
        storage := [("didit-cache-v1", [("/api/notes", ⟨200, "old"⟩)])],
        netFetches := 0, cacheReads := 0, cacheWrites := 0 } :=
  fetch_nonGet_passThrough _ _ _ (by decide)

/-- C4: for every non-API GET request absent from the cache whose network
fetch resolves, the handler returns the network response, the background
store puts a copy into the current generation, and once that store has
settled a lookup for the same request identity returns the same response
(store-then-lookup round-trip). -/
theorem fetch_miss_networkSuccess_roundTrip
    (net : Request → Option Response) (st : CacheStorage) (req : Request)
    (r : Response)
    (hm : req.method = "GET")
    (hapi : pathIsApi req.path = false)
    (hmiss : cachesMatch st req.path = none)
    (hnet : net req = some r) :
    handleFetch net st req =
      { result := .respond (some r),
        storage := openPut st CACHE_NAME req.path r,
        netFetches := 1, cacheReads := 1, cacheWrites := 1 } ∧
    cachesMatch (handleFetch net st req).storage req.path = some r := by
  have h1 : handleFetch net st req =
      { result := .respond (some r),
        storage := openPut st CACHE_NAME req.path r,
        netFetches := 1, cacheReads := 1, cacheWrites := 1 } := by
    simp [handleFetch, hm, hapi, hmiss, hnet]
  exact ⟨h1, by rw [h1]; exact cachesMatch_openPut_self _ _ _ _ hmiss⟩

/-- Witness for C4 at a concrete uncached stylesheet request. -/
theorem fetch_miss_networkSuccess_roundTrip_witness :
    handleFetch (fun _ => some ⟨200, "body"⟩)
      [("didit-cache-v1", [])] ⟨"GET", "/app.css", "no-cors"⟩ =
      { result := .respond (some ⟨200, "body"⟩),
        storage := [("didit-cache-v1", [("/app.css", ⟨200, "body"⟩)])],
        netFetches := 1, cacheReads := 1, cacheWrites := 1 } ∧
    cachesMatch
      (handleFetch (fun _ => some ⟨200, "body"⟩)
        [("didit-cache-v1", [])] ⟨"GET", "/app.css", "no-cors"⟩).storage
      "/app.css" = some ⟨200, "body"⟩ :=
  fetch_miss_networkSuccess_roundTrip _ _ _ _ rfl (by decide) rfl rfl

/-- C5: for every non-API GET request absent from the cache whose network
fetch rejects, a navigation request is answered with the cache lookup of
/static/index.html (the stored fallback document when present), while a
non-navigation request gets no fallback: the handler responds with an
absent (undefined) value and the failure stays unhandled. -/
theorem fetch_miss_networkFailure_fallback
    (net : Request → Option Response) (st : CacheStorage) (req : Request)
    (hm : req.method = "GET")
    (hapi : pathIsApi req.path = false)
    (hmiss : cachesMatch st req.path = none)
    (hnet : net req = none) :
    (req.mode = "navigate" →
      handleFetch net st req =
        { result := .respond (cachesMatch st "/static/index.html"),
          storage := st, netFetches := 1, cacheReads := 2, cacheWrites := 0 }) ∧
    (req.mode ≠ "navigate" →
      handleFetch net st req =
        { result := .respond none, storage := st,
          netFetches := 1, cacheReads := 1, cacheWrites := 0 }) := by
  constructor <;> intro hmode <;> simp [handleFetch, hm, hapi, hmiss, hnet, hmode]

/-- Witness for C5: an offline navigation to an uncached page yields the
stored /static/index.html entry; an offline image request yields nothing. -/
theorem fetch_miss_networkFailure_fallback_witness :
    handleFetch (fun _ => none)
      [("didit-cache-v1", [("/static/index.html", ⟨200, "shell"⟩)])]
      ⟨"GET", "/some/page", "navigate"⟩ =
      { result := .respond (some ⟨200, "shell"⟩),
        storage := [("didit-cache-v1", [("/static/index.html", ⟨200, "shell"⟩)])],
        netFetches := 1, cacheReads := 2, cacheWrites := 0 } ∧
    handleFetch (fun _ => none)
      [("didit-cache-v1", [("/static/index.html", ⟨200, "shell"⟩)])]
      ⟨"GET", "/img/logo.png", "no-cors"⟩ =
      { result := .respond none,
        storage := [("didit-cache-v1", [("/static/index.html", ⟨200, "shell"⟩)])],
        netFetches := 1, cacheReads := 1, cacheWrites := 0 } :=
  ⟨(fetch_miss_networkFailure_fallback _ _ _ rfl (by decide) (by decide) rfl).1 rfl,
   (fetch_miss_networkFailure_fallback _ _ _ rfl (by decide) (by decide) rfl).2 (by decide)⟩

/-- C9: a non-API GET miss whose fetch resolves with any HTTP status —
4xx/5xx included, there is no status check before the put — is stored, and
afterwards every request for the same identity (under any network oracle)
is served that stored response from cache with zero network fetches and an
unchanged storage. -/
theorem fetch_errorStatus_cached_servedFromCacheLater
    (net : Request → Option Response) (st : CacheStorage) (req : Request)
    (r : Response)
    (hm : req.method = "GET")
    (hapi : pathIsApi req.path = false)
    (hmiss : cachesMatch st req.path = none)
    (hnet : net req = some r) :
    (handleFetch net st req).result = .respond (some r) ∧
    (handleFetch net st req).cacheWrites = 1 ∧
    ∀ net2 : Request → Option Response,
      handleFetch net2 (handleFetch net st req).storage req =
        { result := .respond (some r),
          storage := (handleFetch net st req).storage,
          netFetches := 0, cacheReads := 1, cacheWrites := 0 } := by
  have h1 : handleFetch net st req =
      { result := .respond (some r),
        storage := openPut st CACHE_NAME req.path r,
        netFetches := 1, cacheReads := 1, cacheWrites := 1 } := by
    simp [handleFetch, hm, hapi, hmiss, hnet]
  have h2 : cachesMatch (openPut st CACHE_NAME req.path r) req.path = some r :=
    cachesMatch_openPut_self _ _ _ _ hmiss
  refine ⟨by rw [h1], by rw [h1], fun net2 => ?_⟩
  rw [h1]
  simp [handleFetch, hm, hapi, h2]

/-- Witness for C9 at a concrete request whose fetch resolves with a 500:
the error response is stored and the follow-up request is a cache hit. -/
theorem fetch_errorStatus_cached_servedFromCacheLater_witness :
    (handleFetch (fun _ => some ⟨500, "err"⟩) [] ⟨"GET", "/app.js", "no-cors"⟩).result
      = .respond (some ⟨500, "err"⟩) ∧
    (handleFetch (fun _ => some ⟨500, "err"⟩) [] ⟨"GET", "/app.js", "no-cors"⟩).cacheWrites = 1 ∧
    ∀ net2 : Request → Option Response,
      handleFetch net2
        (handleFetch (fun _ => some ⟨500, "err"⟩) [] ⟨"GET", "/app.js", "no-cors"⟩).storage
        ⟨"GET", "/app.js", "no-cors"⟩ =
        { result := .respond (some ⟨500, "err"⟩),
          storage := (handleFetch (fun _ => some ⟨500, "err"⟩) []
            ⟨"GET", "/app.js", "no-cors"⟩).storage,
          netFetches := 0, cacheReads := 1, cacheWrites := 0 } :=
  fetch_errorStatus_cached_servedFromCacheLater _ _ _ _ rfl (by decide) rfl rfl

/-- C6: installing with the four-entry asset manifest on a fresh storage
succeeds exactly when every manifest fetch resolves, in which case the
current generation contains exactly those four entries; a single rejected
manifest fetch makes the whole install fail (no partial install reported
as successful). -/
theorem install_manifest_atomic :
    (∀ (net : String → Option Response) (r1 r2 r3 r4 : Response),
      net "/" = some r1 →
      net "/static/index.html" = some r2 →
      net "/static/manifest.webmanifest" = some r3 →
      net "/static/icons/ICON.jpg" = some r4 →
      installSW net [] = some
        [(CACHE_NAME,
          [("/", r1), ("/static/index.html", r2),
           ("/static/manifest.webmanifest", r3),
           ("/static/icons/ICON.jpg", r4)])]) ∧
    (∀ net : String → Option Response,
      (∃ a ∈ ASSETS, net a = none) → installSW net [] = none) := by
  constructor
  · intro net r1 r2 r3 r4 h1 h2 h3 h4
    simp [installSW, openCache, getCache, setCache, cacheAddAll, fetchAll,
      ASSETS, CACHE_NAME, h1, h2, h3, h4, cachePut]
  · intro net ha
    obtain ⟨a, hmem, hnone⟩ := ha
    simp only [ASSETS, List.mem_cons, List.not_mem_nil, or_false] at hmem
    rcases hmem with h | h | h | h <;> subst h <;>
      rcases hA : net "/" with _ | rA <;>
      rcases hB : net "/static/index.html" with _ | rB <;>
      rcases hC : net "/static/manifest.webmanifest" with _ | rC <;>
      simp_all [installSW, openCache, getCache, cacheAddAll, fetchAll, ASSETS]

/-- Witness for C6: an all-resolving oracle installs exactly the four
manifest entries; an all-rejecting oracle makes the install fail. -/
theorem install_manifest_atomic_witness :
    installSW (fun p => some ⟨200, p⟩) [] = some
      [(CACHE_NAME,
        [("/", ⟨200, "/"⟩), ("/static/index.html", ⟨200, "/static/index.html"⟩),
         ("/static/manifest.webmanifest", ⟨200, "/static/manifest.webmanifest"⟩),
         ("/static/icons/ICON.jpg", ⟨200, "/static/icons/ICON.jpg"⟩)])] ∧
    installSW (fun _ => none) [] = none :=
  ⟨install_manifest_atomic.1 _ _ _ _ _ rfl rfl rfl rfl,
   install_manifest_atomic.2 _ ⟨"/", by decide, rfl⟩⟩

/-- C7: activation issues a deletion for a generation name exactly when it
differs from the current identifier CACHE_NAME ("didit-cache-v1"); every
generation named CACHE_NAME survives the sweep; and from the storage with
generations didit-cache-v0 and didit-cache-v1 only didit-cache-v1 remains. -/
theorem activate_deletesExactlyStaleGenerations :
    (∀ (st : CacheStorage) (k : String),
      k ∈ (activateSW st).1 ↔ k ∈ st.map Prod.fst ∧ k ≠ CACHE_NAME) ∧
    (∀ st : CacheStorage, CACHE_NAME ∉ (activateSW st).1) ∧
    (∀ (st : CacheStorage) (e : String × Cache),
      e ∈ st → e.1 = CACHE_NAME → e ∈ (activateSW st).2) ∧
    (∀ c0 c1 : Cache,
      activateSW [("didit-cache-v0", c0), ("didit-cache-v1", c1)] =
        (["didit-cache-v0"], [("didit-cache-v1", c1)])) := by
  have hmem : ∀ (st : CacheStorage) (k : String),
      k ∈ (activateSW st).1 ↔ k ∈ st.map Prod.fst ∧ k ≠ CACHE_NAME := by
    intro st k
    simp [activateSW, List.mem_filter]
  refine ⟨hmem, ?_, ?_, ?_⟩
  · intro st h
    exact ((hmem st CACHE_NAME).mp h).2 rfl
  · intro st e he hcur
    simp only [activateSW, List.mem_filter]
    exact ⟨he, by simp [hcur]⟩
  · intro c0 c1
    simp [activateSW, CACHE_NAME]

/-- Witness for C7 at a two-generation storage: the stale name is deleted,
the current one is kept, and the current generation entry survives. -/
theorem activate_deletesExactlyStaleGenerations_witness :
    activateSW [("didit-cache-v0", ([] : Cache)), ("didit-cache-v1", ([] : Cache))] =
      (["didit-cache-v0"], [("didit-cache-v1", ([] : Cache))]) ∧
    ("didit-cache-v0" ∈
      (activateSW [("didit-cache-v0", ([] : Cache)), ("didit-cache-v1", ([] : Cache))]).1
      ↔ "didit-cache-v0" ∈
          ([("didit-cache-v0", ([] : Cache)), ("didit-cache-v1", ([] : Cache))].map Prod.fst)
        ∧ "didit-cache-v0" ≠ CACHE_NAME) ∧
    (("didit-cache-v1", ([] : Cache)) ∈
      (activateSW [("didit-cache-v0", ([] : Cache)), ("didit-cache-v1", ([] : Cache))]).2) :=
  ⟨activate_deletesExactlyStaleGenerations.2.2.2 [] [],
   activate_deletesExactlyStaleGenerations.1 _ _,
   activate_deletesExactlyStaleGenerations.2.2.1 _ _ (by decide) rfl⟩

/-- C10: every cache read of the fetch handler goes through the global
lookup over all generations, so an entry living only in a generation other
than the current one is still found by the cache-first lookup, by the
network-first fallback and by the navigation fallback; only the background
write opens the current generation by name (creating it, leaving the old
generation untouched). -/
theorem fetch_reads_matchAllGenerations :
    (∀ (net : Request → Option Response) (oldName : String) (oldCache : Cache)
        (req : Request) (c : Response),
      req.method = "GET" → pathIsApi req.path = false →
      cacheMatch oldCache req.path = some c →
      handleFetch net [(oldName, oldCache)] req =
        { result := .respond (some c), storage := [(oldName, oldCache)],
          netFetches := 0, cacheReads := 1, cacheWrites := 0 }) ∧
    (∀ (net : Request → Option Response) (oldName : String) (oldCache : Cache)
        (req : Request) (c : Response),
      req.method = "GET" → pathIsApi req.path = true → net req = none →
      cacheMatch oldCache req.path = some c →
      (handleFetch net [(oldName, oldCache)] req).result = .respond (some c)) ∧
    (∀ (net : Request → Option Response) (oldName : String) (oldCache : Cache)
        (req : Request) (fb : Response),
      req.method = "GET" → pathIsApi req.path = false →
      cacheMatch oldCache req.path = none → net req = none →
      req.mode = "navigate" →
      cacheMatch oldCache "/static/index.html" = some fb →
      (handleFetch net [(oldName, oldCache)] req).result = .respond (some fb)) ∧
    (∀ (net : Request → Option Response) (oldName : String) (oldCache : Cache)
        (req : Request) (r : Response),
      oldName ≠ CACHE_NAME →
      req.method = "GET" → pathIsApi req.path = false →
      cacheMatch oldCache req.path = none → net req = some r →
      (handleFetch net [(oldName, oldCache)] req).storage =
        [(oldName, oldCache), (CACHE_NAME, [(req.path, r)])]) := by
  refine ⟨?_, ?_, ?_, ?_⟩
  · intro net oldName oldCache req c hm hapi hc
    simp [handleFetch, hm, hapi, cachesMatch, hc]
  · intro net oldName oldCache req c hm hapi hnet hc
    simp [handleFetch, hm, hapi, hnet, cachesMatch, hc]
  · intro net oldName oldCache req fb hm hapi hc hnet hmode hfb
    simp [handleFetch, hm, hapi, hnet, hmode, cachesMatch, hc, hfb]
  · intro net oldName oldCache req r hname hm hapi hc hnet
    simp [handleFetch, hm, hapi, hnet, cachesMatch, hc, openPut, hname, cachePut]

/-- Witness for C10: entries living only in the superseded generation
didit-cache-v0 are served by all three read paths, and the refill write
creates and targets the current generation didit-cache-v1. -/
theorem fetch_reads_matchAllGenerations_witness :
    handleFetch (fun _ => none)
      [("didit-cache-v0", [("/app.js", ⟨200, "a"⟩)])]
      ⟨"GET", "/app.js", "no-cors"⟩ =
      { result := .respond (some ⟨200, "a"⟩),
        storage := [("didit-cache-v0", [("/app.js", ⟨200, "a"⟩)])],
        netFetches := 0, cacheReads := 1, cacheWrites := 0 } ∧
    (handleFetch (fun _ => none)
      [("didit-cache-v0", [("/api/notes", ⟨200, "n"⟩)])]
      ⟨"GET", "/api/notes", "cors"⟩).result = .respond (some ⟨200, "n"⟩) ∧
    (handleFetch (fun _ => none)
      [("didit-cache-v0", [("/static/index.html", ⟨200, "shell"⟩)])]
      ⟨"GET", "/some/page", "navigate"⟩).result = .respond (some ⟨200, "shell"⟩) ∧
    (handleFetch (fun _ => some ⟨200, "new"⟩)
      [("didit-cache-v0", ([] : Cache))]
      ⟨"GET", "/app.css", "no-cors"⟩).storage =
      [("didit-cache-v0", ([] : Cache)), (CACHE_NAME, [("/app.css", ⟨200, "new"⟩)])] :=
  ⟨fetch_reads_matchAllGenerations.1 _ _ _ _ _ rfl (by decide) (by decide),
   fetch_reads_matchAllGenerations.2.1 _ _ _ _ _ rfl (by decide) rfl (by decide),
   fetch_reads_matchAllGenerations.2.2.1 _ _ _ _ _ rfl (by decide) (by decide) rfl rfl (by decide),
   fetch_reads_matchAllGenerations.2.2.2 _ _ _ _ _ (by decide) rfl (by decide) (by decide) rfl⟩
